import Mathlib

/-!
# Verification of the backtesting / validation engine

Shallow embedding, in Lean 4 over `ℚ`, of the backtesting and validation
code of this repository:

* `scripts/polygon_backtesting_engine.py` — `PolygonBacktestingEngine._run_momentum_strategy`
* `scripts/enhanced_backtesting_engine.py` — `EnhancedBacktester._execute_trades`
* `scripts/enhanced_backtesting_part2.py` — `RiskManager`, `PerformanceAnalytics`,
  `WalkForwardAnalyzer`, `MonteCarloSimulator`
* `scripts/backtest_validator.py` / `scripts/backtest_validation_framework.py` —
  `BacktestValidator`

Python floats are modelled as exact rationals, pandas frames as association
lists in index order, and Python dicts as insertion-ordered association lists.
-/

namespace F1

/-- Python `int(q)` on a float: truncation toward zero.
`Int` division in Lean truncates toward zero, so `num / den` is exact. -/
def pyInt (q : ℚ) : ℤ := q.num / (q.den : ℤ)

/-- Fuel-driven body of Python `range(0, stop, step)`: emit `start` while
`start < stop`, advancing by `step`.  The fuel bounds the recursion; `stop`
units of fuel are enough whenever `0 < step`. -/
def pythonRangeAux (stop step : ℕ) : ℕ → ℕ → List ℕ
  | _, 0 => []
  | start, fuel + 1 =>
    if start < stop then start :: pythonRangeAux stop step (start + step) fuel else []

/-- Python `range(0, stop, step)` for a non-negative `stop` (a negative Python
stop is modelled by `stop = 0`, which likewise yields the empty range). -/
def pythonRange (stop step : ℕ) : List ℕ := pythonRangeAux stop step 0 stop

/-- Minimum of a list, as pandas `Series.min` / `numpy.min` on non-empty data.
(pandas returns NaN on an empty series; callers below are only ever applied to
non-empty series.) -/
def listMin : List ℚ → ℚ
  | [] => 0
  | x :: xs => xs.foldl min x

/-- Maximum of a list, as `numpy.max` on non-empty data. -/
def listMax : List ℚ → ℚ
  | [] => 0
  | x :: xs => xs.foldl max x

/-- `numpy.mean` of a list. -/
def listMean (l : List ℚ) : ℚ := l.sum / l.length

/-- pandas `(…).cumprod()`: running products. -/
def cumprod : List ℚ → List ℚ :=
  go 1
where
  /-- running product accumulator -/
  go (acc : ℚ) : List ℚ → List ℚ
    | [] => []
    | x :: xs => (acc * x) :: go (acc * x) xs

/-- Tail of pandas `(…).expanding().max()` once the first element `m` is fixed. -/
def runningMaxAux (m : ℚ) : List ℚ → List ℚ
  | [] => []
  | x :: xs => max m x :: runningMaxAux (max m x) xs

/-- pandas `(…).expanding().max()`: running maxima. -/
def runningMax : List ℚ → List ℚ
  | [] => []
  | x :: xs => x :: runningMaxAux x xs

/-- Association-list access, the model of Python dict / pandas label lookup:
the value of the first matching key. -/
def alGet {κ β : Type} [DecidableEq κ] (key : κ) : List (κ × β) → Option β
  | [] => none
  | (k, v) :: t => if key = k then some v else alGet key t

/-- Stable insertion of `x`: before the first element `y` with `lt x y`,
after every earlier element; ties keep their original order. -/
def pyInsert {α : Type} (lt : α → α → Bool) (x : α) : List α → List α
  | [] => [x]
  | y :: ys => if lt x y then x :: y :: ys else y :: pyInsert lt x ys

/-- Python's stable sort (`sorted(…)` / `list.sort()`), as repeated stable
insertion: `a` ends up before `b` exactly when `lt a b`, or when neither
compares below the other and `a` came first. -/
def pySorted {α : Type} (lt : α → α → Bool) (l : List α) : List α :=
  l.foldl (fun acc x => pyInsert lt x acc) []

/-- Duplicate removal for Python's `set(…)`.  This keeps last occurrences,
which is irrelevant here: every use sorts the result immediately afterwards,
as `sorted(set(…))`. -/
def listDedup {α : Type} [DecidableEq α] : List α → List α
  | [] => []
  | x :: xs => if x ∈ xs then listDedup xs else x :: listDedup xs

/-- List access by non-negative position. -/
def listNth {α : Type} : List α → ℕ → Option α
  | [], _ => none
  | x :: _, 0 => some x
  | _ :: xs, n + 1 => listNth xs n

/-- Position accumulator of `pandas.Index.get_loc`. -/
def pyGetLocAux (d : ℕ) : List ℕ → ℕ → Option ℕ
  | [], _ => none
  | x :: xs, i => if x = d then some i else pyGetLocAux d xs (i + 1)

/-- `df.index.get_loc(date)`: the position of the first occurrence. -/
def pyGetLoc (dates : List ℕ) (d : ℕ) : Option ℕ := pyGetLocAux d dates 0

end F1

namespace F1

/-! ## `PolygonBacktestingEngine._run_momentum_strategy`
(`scripts/polygon_backtesting_engine.py`, lines 351–455)

A symbol's pandas frame is the list of its `(date, Close)` rows in index
order; dates are day numbers.  Only the `Close` column is read by the
momentum strategy. -/

/-- One symbol's price frame: `(date, Close)` in index order. -/
abbrev Df := List (ℕ × ℚ)

/-- `df.index`. -/
def dfDates (df : Df) : List ℕ := df.map Prod.fst

/-- `df.loc[date, 'Close']`, `none` when the date is missing from the index. -/
def dfClose (df : Df) (d : ℕ) : Option ℚ := alGet d df

/-- `date in df.index`. -/
def dfHasDate (df : Df) (d : ℕ) : Bool := (dfDates df).contains d

/-- Python list indexing `dates[i]` including the negative-index wrap-around
(`dates[-k]` counts from the end). -/
def pyIndexDate (dates : List ℕ) (i : ℤ) : Option ℕ :=
  if 0 ≤ i then listNth dates i.toNat else listNth dates (dates.length - (-i).toNat)

/-- The engine parameters read by the momentum strategy
(`self.default_params` merged with caller overrides). -/
structure PolyParams where
  initial_capital : ℚ
  commission : ℚ
  position_size : ℚ
  max_positions : ℕ
deriving DecidableEq, Repr

/-- The strategy-template parameters read by the momentum strategy. -/
structure PolyConfig where
  lookback_period : ℕ
  momentum_threshold : ℚ
  holding_period : ℕ
deriving DecidableEq, Repr

/-- An open position, as stored in `results['positions'][symbol]`. -/
structure PolyPosition where
  quantity : ℚ
  entry_price : ℚ
  entry_date : ℕ
  cost : ℚ
deriving DecidableEq, Repr

/-- A recorded trade, as appended to `results['trades']`. -/
structure PolyTrade where
  symbol : String
  entry_date : ℕ
  exit_date : ℕ
  entry_price : ℚ
  exit_price : ℚ
  quantity : ℚ
  pnl : ℚ
  pnl_pct : ℚ
deriving DecidableEq, Repr

/-- The mutable `results` dict of `_run_momentum_strategy`.  The positions
dict is an insertion-ordered association list with unique keys. -/
structure PolyState where
  trades : List PolyTrade
  positions : List (String × PolyPosition)
  portfolio_value : List ℚ
  cash : ℚ
  total_value : ℚ
  dates : List ℕ
deriving DecidableEq, Repr

/-- Initial `results` dict. -/
def polyInitState (params : PolyParams) : PolyState :=
  { trades := [], positions := [], portfolio_value := [],
    cash := params.initial_capital, total_value := params.initial_capital, dates := [] }

/-- The per-date mark-to-market: `cash + Σ position.quantity × Close(date)`
over positions whose symbol has data for the date. -/
def polyPortfolioValue (data : List (String × Df)) (positions : List (String × PolyPosition))
    (cash : ℚ) (date : ℕ) : ℚ :=
  positions.foldl (fun acc p =>
    match (alGet p.1 data).bind (fun df => dfClose df date) with
    | some current_price => acc + p.2.quantity * current_price
    | none => acc) cash

/-- Exit handling for one symbol of the snapshot `list(results['positions'].keys())`:
close the position when the holding period is reached, crediting
`quantity × Close × (1 − commission)` to cash and recording the trade. -/
def polyProcessExit (data : List (String × Df)) (params : PolyParams) (cfg : PolyConfig)
    (date : ℕ) (st : PolyState) (sym : String) : PolyState :=
  match alGet sym st.positions with
  | none => st
  | some position =>
    match (alGet sym data).bind (fun df => dfClose df date) with
    | none => st
    | some current_price =>
      let days_held : ℤ := (date : ℤ) - (position.entry_date : ℤ)
      if (cfg.holding_period : ℤ) ≤ days_held then
        let exit_value := position.quantity * current_price * (1 - params.commission)
        let trade : PolyTrade :=
          { symbol := sym
            entry_date := position.entry_date
            exit_date := date
            entry_price := position.entry_price
            exit_price := current_price
            quantity := position.quantity
            pnl := exit_value - position.cost
            pnl_pct := (exit_value - position.cost) / position.cost }
        { st with cash := st.cash + exit_value
                  trades := st.trades ++ [trade]
                  positions := st.positions.filter (fun q => q.1 ≠ sym) }
      else st

/-- An entry candidate: `{'symbol': …, 'momentum': …, 'price': …}`. -/
structure PolyCandidate where
  symbol : String
  momentum : ℚ
  price : ℚ
deriving DecidableEq, Repr

/-- The momentum computation for one symbol on one date:
`(Close(date) − Close(index[get_loc(date) − lookback])) / Close(index[get_loc(date) − lookback])`,
guarded by `len(df) >= lookback` and `lookback_date in df.index`.
`index[get_loc(date) − lookback]` uses Python's negative-index wrap-around. -/
def polyMomentum (df : Df) (date : ℕ) (lookback : ℕ) : Option ℚ :=
  if lookback ≤ df.length then
    match pyGetLoc (dfDates df) date with
    | none => none
    | some loc =>
      match pyIndexDate (dfDates df) ((loc : ℤ) - (lookback : ℤ)) with
      | none => none
      | some lookback_date =>
        if dfHasDate df lookback_date then
          match dfClose df date, dfClose df lookback_date with
          | some c, some lb => some ((c - lb) / lb)
          | _, _ => none
        else none
  else none

/-- Candidate collection: symbols without an open position having data for the
date whose momentum exceeds the threshold, in data (dict insertion) order. -/
def polyCandidates (data : List (String × Df)) (positions : List (String × PolyPosition))
    (date : ℕ) (lookback : ℕ) (threshold : ℚ) : List PolyCandidate :=
  data.foldl (fun acc p =>
    if (alGet p.1 positions).isNone ∧ dfHasDate p.2 date then
      match polyMomentum p.2 date lookback, dfClose p.2 date with
      | some momentum, some price =>
        if threshold < momentum then acc ++ [⟨p.1, momentum, price⟩] else acc
      | _, _ => acc
    else acc) []

/-- Entry handling for one selected candidate:
`quantity = cash × position_size / price`, opened only when `0 < quantity`
and `cost = quantity × price × (1 + commission) ≤ cash`. -/
def polyProcessEntry (params : PolyParams) (date : ℕ) (st : PolyState)
    (c : PolyCandidate) : PolyState :=
  let position_value := st.cash * params.position_size
  let quantity := position_value / c.price
  if 0 < quantity then
    let cost := quantity * c.price * (1 + params.commission)
    if cost ≤ st.cash then
      { st with
        positions := st.positions ++ [(c.symbol, ⟨quantity, c.price, date, cost⟩)]
        cash := st.cash - cost }
    else st
  else st

/-- `candidates.sort(key=momentum, reverse=True)`: stable descending sort. -/
def polySortCandidates (l : List PolyCandidate) : List PolyCandidate :=
  pySorted (fun a b => decide (b.momentum < a.momentum)) l

/-- One iteration of the date loop: mark to market, then exits over the
snapshot of open symbols, then ranked entries filling the spare capacity. -/
def polyStepDate (data : List (String × Df)) (params : PolyParams) (cfg : PolyConfig)
    (st : PolyState) (date : ℕ) : PolyState :=
  let pv := polyPortfolioValue data st.positions st.cash date
  let st₁ := { st with total_value := pv
                       portfolio_value := st.portfolio_value ++ [pv]
                       dates := st.dates ++ [date] }
  let st₂ := (st₁.positions.map Prod.fst).foldl (polyProcessExit data params cfg date) st₁
  if st₂.positions.length < params.max_positions then
    let candidates := polySortCandidates
      (polyCandidates data st₂.positions date cfg.lookback_period cfg.momentum_threshold)
    (candidates.take (params.max_positions - st₂.positions.length)).foldl
      (polyProcessEntry params date) st₂
  else st₂

/-- `sorted(all_dates)` where `all_dates` is the union of the symbols' indices. -/
def polyAllDates (data : List (String × Df)) : List ℕ :=
  pySorted (fun a b => decide (a < b)) (listDedup (data.map (fun p => dfDates p.2)).flatten)

/-- `_run_momentum_strategy`: fold the date loop over the sorted date axis. -/
def runMomentumStrategy (data : List (String × Df)) (params : PolyParams)
    (cfg : PolyConfig) : PolyState :=
  (polyAllDates data).foldl (polyStepDate data params cfg) (polyInitState params)

end F1

namespace F1

/-! ## `EnhancedBacktester._execute_trades`
(`scripts/enhanced_backtesting_engine.py`, lines 183–282)

The signal frame is a list of rows `(date, Signal, Price)`; a NaN signal is
modelled as `none` (the row is skipped). -/

/-- One row of the signal frame. -/
structure SignalRow where
  date : ℕ
  signal : Option ℚ
  price : ℚ
deriving DecidableEq, Repr

/-- The parameters read by `_execute_trades`. -/
structure EnhParams where
  initial_capital : ℚ
  commission : ℚ
  slippage : ℚ
  position_size : ℚ
deriving DecidableEq, Repr

/-- A trade dict appended to `trades` by `_execute_trades`
(`'return'` is called `trade_return` here, `return` being reserved). -/
structure EnhTrade where
  symbol : String
  entry_date : ℕ
  exit_date : ℕ
  entry_price : ℚ
  exit_price : ℚ
  position : ℚ
  shares : ℚ
  gross_pnl : ℚ
  commission : ℚ
  net_pnl : ℚ
  trade_return : ℚ
  cash_after : ℚ
deriving DecidableEq, Repr

/-- The loop-local state of `_execute_trades`.  `entry_date` starts as
Python `None`; it is only ever read while a position is open, after having
been assigned, so a default of `0` is faithful. -/
structure EnhState where
  trades : List EnhTrade
  position : ℚ
  entry_price : ℚ
  entry_date : ℕ
  cash : ℚ
deriving DecidableEq, Repr

/-- Initial loop state of `_execute_trades`. -/
def enhInitState (params : EnhParams) : EnhState :=
  { trades := [], position := 0, entry_price := 0, entry_date := 0,
    cash := params.initial_capital }

/-- One iteration of the row loop of `_execute_trades`: slippage-adjusted
execution price, close of a position whose signal changed, then opening of a
new position of `int(cash × position_size / execution_price)` shares. -/
def enhStep (symbol : String) (params : EnhParams) (st : EnhState)
    (row : SignalRow) : EnhState :=
  match row.signal with
  | none => st
  | some signal =>
    let price := row.price
    let execution_price :=
      if 0 < signal then price * (1 + params.slippage)
      else if signal < 0 then price * (1 - params.slippage)
      else price
    let st₁ :=
      if st.position ≠ 0 ∧ signal ≠ st.position then
        let exit_price := execution_price
        let shares := |st.position|
        let gross_pnl := (exit_price - st.entry_price) * shares
        let commission := exit_price * shares * params.commission
        let net_pnl := gross_pnl - commission
        let cash := st.cash + exit_price * shares - commission
        { st with
          cash := cash
          position := 0
          trades := st.trades ++
            [{ symbol := symbol
               entry_date := st.entry_date
               exit_date := row.date
               entry_price := st.entry_price
               exit_price := exit_price
               position := st.position
               shares := shares
               gross_pnl := gross_pnl
               commission := commission
               net_pnl := net_pnl
               trade_return := net_pnl / (st.entry_price * shares)
               cash_after := cash }] }
      else st
    if signal ≠ 0 ∧ st₁.position = 0 then
      let position_value := st₁.cash * params.position_size
      let shares : ℤ := pyInt (position_value / execution_price)
      if 0 < shares then
        let commission := execution_price * (shares : ℚ) * params.commission
        { st₁ with
          position := signal * (shares : ℚ)
          entry_price := execution_price
          entry_date := row.date
          cash := st₁.cash - (execution_price * (shares : ℚ) + commission) }
      else st₁
    else st₁

/-- The close of a still-open final position at
`signals.iloc[-1]['Price'] × (1 − slippage)` (cash is not updated here;
`cash_after` is computed inline, as in the source). -/
def enhFinalClose (symbol : String) (params : EnhParams) (signals : List SignalRow)
    (st : EnhState) : EnhState :=
  if st.position ≠ 0 then
    match signals.getLast? with
    | none => st
    | some lastRow =>
      let exit_price := lastRow.price * (1 - params.slippage)
      let shares := |st.position|
      let gross_pnl := (exit_price - st.entry_price) * shares
      let commission := exit_price * shares * params.commission
      let net_pnl := gross_pnl - commission
      { st with trades := st.trades ++
          [{ symbol := symbol
             entry_date := st.entry_date
             exit_date := lastRow.date
             entry_price := st.entry_price
             exit_price := exit_price
             position := st.position
             shares := shares
             gross_pnl := gross_pnl
             commission := commission
             net_pnl := net_pnl
             trade_return := net_pnl / (st.entry_price * shares)
             cash_after := st.cash + exit_price * shares - commission }] }
  else st

/-- `_execute_trades(signals, symbol, parameters)`. -/
def execute_trades (signals : List SignalRow) (symbol : String)
    (params : EnhParams) : List EnhTrade :=
  (enhFinalClose symbol params signals
    (signals.foldl (enhStep symbol params) (enhInitState params))).trades

end F1

namespace F1

/-! ## `enhanced_backtesting_part2.py`: drawdowns, walk-forward, Monte Carlo -/

namespace PerformanceAnalytics

/-- `PerformanceAnalytics._calculate_max_drawdown` (lines 186–191):
compound the returns, take the running maximum, and return the minimum of
`(cumulative − running_max) / running_max`. -/
def calculate_max_drawdown (returns : List ℚ) : ℚ :=
  let cumulative := cumprod (returns.map (fun r => 1 + r))
  let running_max := runningMax cumulative
  let drawdown := List.zipWith (fun c m => (c - m) / m) cumulative running_max
  listMin drawdown

end PerformanceAnalytics

namespace RiskManager

/-- `RiskManager._calculate_max_drawdown` (lines 97–106): identical body to
the `PerformanceAnalytics` version (its `try/except` handler is dead in this
total model). -/
def calculate_max_drawdown (returns : List ℚ) : ℚ :=
  let cumulative := cumprod (returns.map (fun r => 1 + r))
  let running_max := runningMax cumulative
  let drawdown := List.zipWith (fun c m => (c - m) / m) cumulative running_max
  listMin drawdown

end RiskManager

namespace MonteCarloSimulator

/-- `MonteCarloSimulator._calculate_max_drawdown` (lines 366–370), applied to
a portfolio-value series rather than a return series. -/
def calculate_max_drawdown (portfolio_values : List ℚ) : ℚ :=
  let running_max := runningMax portfolio_values
  let drawdown := List.zipWith (fun v m => (v - m) / m) portfolio_values running_max
  listMin drawdown

end MonteCarloSimulator

/-- The portfolio-value series built inside `run_monte_carlo`:
`initial_capital * (1 + returns).cumprod()`. -/
def portfolioValues (initial_capital : ℚ) (returns : List ℚ) : List ℚ :=
  (cumprod (returns.map (fun r => 1 + r))).map (fun c => initial_capital * c)

namespace WalkForwardAnalyzer

/-- One walk-forward window: `[train_start, train_end)` then
`[test_start, test_end)` as produced inside `run_walk_forward`. -/
structure Window where
  train_start : ℕ
  train_end : ℕ
  test_start : ℕ
  test_end : ℕ
deriving DecidableEq, Repr

/-- The loop header of `run_walk_forward` (lines 266–299):
`for start_idx in range(0, len(data) - train_period - test_period, step_size)`.
A negative Python stop yields the empty range, as does the truncated
subtraction here. -/
def walkForwardStarts (n train_period test_period step_size : ℕ) : List ℕ :=
  pythonRange (n - train_period - test_period) step_size

/-- The windows produced by `run_walk_forward` over a series of length `n`. -/
def run_walk_forward_windows (n train_period test_period step_size : ℕ) : List Window :=
  (walkForwardStarts n train_period test_period step_size).map fun start_idx =>
    { train_start := start_idx
      train_end := start_idx + train_period
      test_start := start_idx + train_period
      test_end := start_idx + train_period + test_period }

end WalkForwardAnalyzer

end F1

namespace F1

namespace MonteCarloSimulator

/-! ### `MonteCarloSimulator.run_monte_carlo` (lines 336–364)

`pandas.Series.sample(n, replace=True)` draws `n` independent positions from
the library's pseudo-random generator.  The generator itself is numpy library
code, not part of this repository; it is modelled by a deterministic
linear-congruential stream seeded by the caller.  Nothing below depends on the
particular stream: only on the fact that sampling consumes an explicit,
deterministically-evolving generator state.

`numpy.std` is a square root of the population variance; the aggregate record
stores the variance (field names `std_*`), the square root being a bijective
re-parametrisation that is irrelevant to every statement made about it. -/

/-- Explicit pseudo-random generator state (model of the numpy generator). -/
structure Rng where
  state : ℕ
deriving DecidableEq, Repr

/-- Seeding the generator. -/
def mkRng (seed : ℕ) : Rng := ⟨seed⟩

/-- One step of the generator stream: a 64-bit linear-congruential update. -/
def rngNext (r : Rng) : ℕ × Rng :=
  let s := (6364136223846793005 * r.state + 1442695040888963407) % (2 ^ 64)
  (s, ⟨s⟩)

/-- Draw `n` sample positions `< m` from the generator. -/
def rngIndices (m : ℕ) : ℕ → Rng → List ℕ × Rng
  | 0, r => ([], r)
  | n + 1, r =>
    let (v, r₁) := rngNext r
    let (rest, r₂) := rngIndices m n r₁
    ((v % m) :: rest, r₂)

/-- `returns.sample(n=len(returns), replace=True)`: bootstrap resampling with
replacement. -/
def sampleWithReplacement (returns : List ℚ) (r : Rng) : List ℚ × Rng :=
  let (idxs, r₁) := rngIndices returns.length returns.length r
  (idxs.map (fun i => returns.getD i 0), r₁)

/-- The record built for one simulation. -/
structure SimResult where
  simulation : ℕ
  final_value : ℚ
  total_return : ℚ
  max_drawdown : ℚ
deriving DecidableEq, Repr

/-- One simulation: bootstrap-resample the returns, compound them into a
portfolio-value curve from `initial_capital`, and record final value, total
return and max drawdown. -/
def runOneSimulation (returns : List ℚ) (initial_capital : ℚ) (i : ℕ)
    (r : Rng) : SimResult × Rng :=
  let (bootstrapped_returns, r₁) := sampleWithReplacement returns r
  let cumulative_returns := cumprod (bootstrapped_returns.map (fun x => 1 + x))
  let portfolio_values := cumulative_returns.map (fun c => initial_capital * c)
  let final_value := (portfolio_values.getLast?).getD 0
  let max_drawdown := calculate_max_drawdown portfolio_values
  ({ simulation := i
     final_value := final_value
     total_return := (final_value - initial_capital) / initial_capital
     max_drawdown := max_drawdown }, r₁)

/-- The simulation loop `for i in range(self.n_simulations)`. -/
def runSimulations (returns : List ℚ) (initial_capital : ℚ) :
    ℕ → ℕ → Rng → List SimResult
  | _, 0, _ => []
  | i, n + 1, r =>
    let (res, r₁) := runOneSimulation returns initial_capital i r
    res :: runSimulations returns initial_capital (i + 1) n r₁

/-- Population variance, the square of `numpy.std`. -/
def npVarianceOf (l : List ℚ) : ℚ :=
  let m := listMean l
  listMean (l.map (fun x => (x - m) ^ 2))

/-- `numpy.percentile(l, q)` with the default linear interpolation. -/
def npPercentile (l : List ℚ) (q : ℚ) : ℚ :=
  let s := pySorted (fun a b => decide (a < b)) l
  let n := s.length
  if n = 0 then 0
  else
    let h := q * ((n : ℚ) - 1) / 100
    let lo := h.floor.toNat
    let frac := h - (lo : ℚ)
    let vlo := s.getD lo 0
    let vhi := s.getD (min (lo + 1) (n - 1)) 0
    vlo + frac * (vhi - vlo)

/-- The aggregate statistics of `_analyze_monte_carlo_results` (lines 372–…).
`std_*` fields store population variances (see the section comment). -/
structure Analysis where
  n_simulations : ℕ
  avg_total_return : ℚ
  std_total_return : ℚ
  min_total_return : ℚ
  max_total_return : ℚ
  avg_max_drawdown : ℚ
  std_max_drawdown : ℚ
  min_max_drawdown : ℚ
  max_max_drawdown : ℚ
  avg_final_value : ℚ
  std_final_value : ℚ
  min_final_value : ℚ
  max_final_value : ℚ
  positive_simulations : ℕ
  negative_simulations : ℕ
  return_95_lo : ℚ
  return_95_hi : ℚ
  drawdown_95_lo : ℚ
  drawdown_95_hi : ℚ
deriving DecidableEq, Repr

/-- `_analyze_monte_carlo_results` on a non-empty result list (the empty case
returns the empty dict upstream). -/
def analyzeResults (results : List SimResult) : Analysis :=
  let total_returns := results.map SimResult.total_return
  let max_drawdowns := results.map SimResult.max_drawdown
  let final_values := results.map SimResult.final_value
  { n_simulations := results.length
    avg_total_return := listMean total_returns
    std_total_return := npVarianceOf total_returns
    min_total_return := listMin total_returns
    max_total_return := listMax total_returns
    avg_max_drawdown := listMean max_drawdowns
    std_max_drawdown := npVarianceOf max_drawdowns
    min_max_drawdown := listMin max_drawdowns
    max_max_drawdown := listMax max_drawdowns
    avg_final_value := listMean final_values
    std_final_value := npVarianceOf final_values
    min_final_value := listMin final_values
    max_final_value := listMax final_values
    positive_simulations := (total_returns.filter (fun r => 0 < r)).length
    negative_simulations := (total_returns.filter (fun r => r < 0)).length
    return_95_lo := npPercentile total_returns (5 / 2)
    return_95_hi := npPercentile total_returns (195 / 2)
    drawdown_95_lo := npPercentile max_drawdowns (5 / 2)
    drawdown_95_hi := npPercentile max_drawdowns (195 / 2) }

/-- `run_monte_carlo(returns, initial_capital)` with the generator seeded at
`seed`: run `n_simulations` bootstraps and aggregate. -/
def run_monte_carlo (n_simulations : ℕ) (returns : List ℚ)
    (initial_capital : ℚ) (seed : ℕ) : Analysis :=
  analyzeResults (runSimulations returns initial_capital 0 n_simulations (mkRng seed))

end MonteCarloSimulator

end F1

namespace F1

/-! ## `BacktestValidator` (`scripts/backtest_validator.py`)

Price rows keep the three columns the known-data-point check reads.  A data
frame is the association list from date string to row. -/

/-- One OHLCV row restricted to the columns read by the validator
(`open` is a Lean keyword, hence `openPrice`/`closePrice`). -/
structure OhlcRow where
  openPrice : ℚ
  closePrice : ℚ
  volume : ℚ
deriving DecidableEq, Repr

/-- A per-symbol data frame: date string → row. -/
abbrev PriceFrame := List (String × OhlcRow)

namespace BacktestValidator

/-- `self.thresholds['price_tolerance']` (0.1%). -/
def price_tolerance : ℚ := 1 / 1000

/-- `self.thresholds['volume_tolerance']` (10%). -/
def volume_tolerance : ℚ := 1 / 10

/-- `self.thresholds['calculation_accuracy']` (60%). -/
def calculation_accuracy_threshold : ℚ := 3 / 5

/-- `self.validation_data`: the built-in ground-truth table of
`backtest_validator.py` (lines 69–80). -/
def validation_data : List (String × List (String × OhlcRow)) :=
  [("AAPL",
    [("2021-01-04", ⟨13352 / 100, 12941 / 100, 1433019⟩),
     ("2021-12-31", ⟨17809 / 100, 17757 / 100, 1051585⟩),
     ("2022-01-03", ⟨17783 / 100, 18201 / 100, 1044879⟩)]),
   ("MSFT",
    [("2021-01-04", ⟨22242 / 100, 21769 / 100, 37130100⟩),
     ("2021-12-31", ⟨33632 / 100, 33469 / 100, 21113900⟩),
     ("2022-01-03", ⟨33469 / 100, 33678 / 100, 25892900⟩)])]

/-- `_validate_known_data_points` (lines 296–323): symbols without reference
data score 1.0; otherwise the fraction of reference points whose date is
present and whose open/close/volume agree within tolerance, out of all
reference points of the symbol. -/
def validate_known_data_points (symbol : String) (df : PriceFrame) : ℚ :=
  match alGet symbol validation_data with
  | none => 1
  | some known_points =>
    let total_points := known_points.length
    let correct_points := known_points.countP fun kp =>
      match alGet kp.1 df with
      | none => false
      | some row =>
        let open_tol := |row.openPrice - kp.2.openPrice| / kp.2.openPrice
        let close_tol := |row.closePrice - kp.2.closePrice| / kp.2.closePrice
        let volume_tol := |row.volume - kp.2.volume| / kp.2.volume
        decide (open_tol ≤ price_tolerance ∧ close_tol ≤ price_tolerance ∧
          volume_tol ≤ volume_tolerance)
    if 0 < total_points then (correct_points : ℚ) / (total_points : ℚ) else 1

/-- The trade dict fields read by `validate_calculations` and its helpers. -/
structure VTrade where
  entry_price : ℚ
  exit_price : ℚ
  quantity : ℚ
  pnl : ℚ
deriving DecidableEq, Repr

/-- The `performance` dict fields read by `_validate_performance_metrics`
(`None` models an absent key, read back through `.get(…, default)`). -/
structure VPerformance where
  total_trades : Option ℕ
  winning_trades : Option ℕ
  total_pnl : Option ℚ
deriving DecidableEq, Repr

/-- The `backtest_results` dict fields read by `validate_calculations`
(`portfolio_value := none` models an absent key). -/
structure VBacktestResults where
  trades : List VTrade
  portfolio_value : Option (List ℚ)
  performance : VPerformance
deriving DecidableEq, Repr

/-- A `ValidationResult` restricted to its homogeneous fields (the `details`
dict of heterogeneous diagnostics is not read by anything modelled here). -/
structure ValidationResult where
  test_name : String
  passed : Bool
  score : ℚ
  error_message : Option String
  recommendations : List String
deriving DecidableEq, Repr

/-- `_validate_trade_calculations` (lines 387–418), reduced to its `score`:
the fraction of trades whose reported `pnl` is within 5% of
`exit×qty×(1−0.001) − entry×qty×(1+0.001)`. -/
def validate_trade_calculations (trades : List VTrade) : ℚ :=
  if trades = [] then 0
  else
    let correct_trades := trades.countP fun t =>
      let entry_cost := t.entry_price * t.quantity * (1 + 1 / 1000)
      let exit_value := t.exit_price * t.quantity * (1 - 1 / 1000)
      let expected_pnl := exit_value - entry_cost
      let pnl_tolerance :=
        if expected_pnl ≠ 0 then |expected_pnl - t.pnl| / |expected_pnl| else 0
      decide (pnl_tolerance ≤ 1 / 20)
    (correct_trades : ℚ) / (trades.length : ℚ)

/-- `_validate_portfolio_calculations` (lines 420–457), reduced to its
`score`: rebuild the equity curve from the trade log and count positions
agreeing within 5%.  (A zero reported value makes the float ratio `inf`/`nan`
in Python, never within tolerance, hence the explicit `≠ 0` guard.) -/
def validate_portfolio_calculations (trades : List VTrade)
    (portfolio_values : List ℚ) (initial_capital : ℚ) : ℚ :=
  if portfolio_values = [] then 0
  else
    let calculated_values := (trades.map VTrade.pnl).scanl (· + ·) initial_capital
    let min_length := min calculated_values.length portfolio_values.length
    let pairs := List.zip (calculated_values.take min_length) (portfolio_values.take min_length)
    let correct_values := pairs.countP fun p =>
      decide (p.2 ≠ 0 ∧ |p.1 - p.2| / p.2 ≤ 1 / 20)
    if 0 < min_length then (correct_values : ℚ) / (min_length : ℚ) else 0

/-- `_validate_performance_metrics` (lines 459–507), reduced to its `score`:
recomputed `total_trades`, `winning_trades` and `total_pnl` (5% tolerance)
against the reported performance dict, out of three checks. -/
def validate_performance_metrics (r : VBacktestResults) : ℚ :=
  if r.trades = [] then 0
  else
    let c₁ : Bool := r.trades.length = r.performance.total_trades.getD 0
    let c₂ : Bool :=
      (r.trades.filter (fun t => decide (0 < t.pnl))).length =
        r.performance.winning_trades.getD 0
    let expected_total_pnl := (r.trades.map VTrade.pnl).sum
    let actual_total_pnl := r.performance.total_pnl.getD 0
    let pnl_tolerance :=
      if expected_total_pnl ≠ 0 then
        |expected_total_pnl - actual_total_pnl| / |expected_total_pnl|
      else 0
    let c₃ : Bool := decide (pnl_tolerance ≤ 1 / 20)
    (([c₁, c₂, c₃].countP id : ℚ)) / 3

/-- `validate_calculations` (lines 325–385).  The read
`backtest_results.get('portfolio_value', [100000])[0]` happens before the
empty-trades early return and raises `IndexError` on an explicitly empty
list, modelled by `Except.error`. -/
def validate_calculations (r : VBacktestResults) :
    Except String ValidationResult :=
  let trades := r.trades
  let portfolio_values := r.portfolio_value.getD []
  match (r.portfolio_value.getD [100000]).head? with
  | none => .error "IndexError: list index out of range"
  | some initial_capital =>
    if trades = [] then
      .ok { test_name := "Calculation Validation"
            passed := false
            score := 0
            error_message := some "No trades to validate"
            recommendations := ["Ensure strategy generates trades",
                                "Check strategy parameters"] }
    else
      let trade_score := validate_trade_calculations trades
      let portfolio_score :=
        validate_portfolio_calculations trades portfolio_values initial_capital
      let performance_score := validate_performance_metrics r
      let overall_score := (trade_score + portfolio_score + performance_score) / 3
      .ok { test_name := "Calculation Validation"
            passed := decide (calculation_accuracy_threshold ≤ overall_score)
            score := overall_score
            error_message := none
            recommendations :=
              if overall_score < calculation_accuracy_threshold then
                ["Calculation accuracy below threshold",
                 "Review trade P&L calculations",
                 "Verify portfolio value calculations"]
              else [] }

/-- The `AccuracyMetrics` record of `backtest_validator.py`. -/
structure AccuracyMetrics where
  data_accuracy : ℚ
  calculation_accuracy : ℚ
  strategy_accuracy : ℚ
  overall_accuracy : ℚ
  confidence_level : ℚ
  validation_score : ℚ
deriving DecidableEq, Repr

/-- `_calculate_accuracy_metrics` of `backtest_validator.py` (lines 536–560):
the mean of the data and calculation scores only, with `strategy_accuracy`
hard-coded to the placeholder 1.0 and excluded from the mean. -/
def calculate_accuracy_metrics (data_accuracy calculation_accuracy : ℚ) :
    AccuracyMetrics :=
  let overall_accuracy := (data_accuracy + calculation_accuracy) / 2
  { data_accuracy := data_accuracy
    calculation_accuracy := calculation_accuracy
    strategy_accuracy := 1
    overall_accuracy := overall_accuracy
    confidence_level := min 1 (overall_accuracy * (11 / 10))
    validation_score := data_accuracy * (4 / 10) + calculation_accuracy * (6 / 10) }

end BacktestValidator

namespace ValidationFramework

/-- `self.validation_data` of `backtest_validation_framework.py`
(lines 78–89): the same ground-truth table. -/
def validation_data : List (String × List (String × OhlcRow)) :=
  [("AAPL",
    [("2021-01-04", ⟨13352 / 100, 12941 / 100, 1433019⟩),
     ("2021-12-31", ⟨17809 / 100, 17757 / 100, 1051585⟩),
     ("2022-01-03", ⟨17783 / 100, 18201 / 100, 1044879⟩)]),
   ("MSFT",
    [("2021-01-04", ⟨22242 / 100, 21769 / 100, 37130100⟩),
     ("2021-12-31", ⟨33632 / 100, 33469 / 100, 21113900⟩),
     ("2022-01-03", ⟨33469 / 100, 33678 / 100, 25892900⟩)])]

/-- `_validate_known_data_points` of `backtest_validation_framework.py`
(lines 344–372): identical body to the `backtest_validator.py` copy. -/
def validate_known_data_points (symbol : String) (df : PriceFrame) : ℚ :=
  match alGet symbol validation_data with
  | none => 1
  | some known_points =>
    let total_points := known_points.length
    let correct_points := known_points.countP fun kp =>
      match alGet kp.1 df with
      | none => false
      | some row =>
        let open_tol := |row.openPrice - kp.2.openPrice| / kp.2.openPrice
        let close_tol := |row.closePrice - kp.2.closePrice| / kp.2.closePrice
        let volume_tol := |row.volume - kp.2.volume| / kp.2.volume
        decide (open_tol ≤ BacktestValidator.price_tolerance ∧
          close_tol ≤ BacktestValidator.price_tolerance ∧
          volume_tol ≤ BacktestValidator.volume_tolerance)
    if 0 < total_points then (correct_points : ℚ) / (total_points : ℚ) else 1

/-- `_calculate_accuracy_metrics` of `backtest_validation_framework.py`
(lines 804–830): the mean of all three category scores. -/
def calculate_accuracy_metrics
    (data_accuracy calculation_accuracy strategy_accuracy : ℚ) :
    BacktestValidator.AccuracyMetrics :=
  let overall_accuracy := (data_accuracy + calculation_accuracy + strategy_accuracy) / 3
  { data_accuracy := data_accuracy
    calculation_accuracy := calculation_accuracy
    strategy_accuracy := strategy_accuracy
    overall_accuracy := overall_accuracy
    confidence_level := min 1 (overall_accuracy * (11 / 10))
    validation_score := data_accuracy * (3 / 10) + calculation_accuracy * (4 / 10) +
      strategy_accuracy * (3 / 10) }

end ValidationFramework

end F1

namespace F1

/-! ## Concrete fixtures

Small concrete inputs used by counterexamples and witnesses below.  The
three-bar `TEST` series with closes `[100, 110, 121]`, `lookback=1`,
`threshold=0.05`, `position_size=0.5`, `initial_capital=10000` and zero
commission/slippage is the scenario from the specification. -/

/-- Three bars of `TEST` with closes `[100, 110, 121]` on days `0,1,2`. -/
def testData : List (String × Df) := [("TEST", [(0, 100), (1, 110), (2, 121)])]

/-- Polygon engine parameters of the scenario: capital 10000, no commission,
half-capital position sizing, 10 position slots. -/
def testPolyParams : PolyParams := ⟨10000, 0, 1 / 2, 10⟩

/-- Momentum strategy configuration of the scenario: `lookback=1`,
`threshold=0.05`, `holding_period=1`. -/
def testPolyCfg : PolyConfig := ⟨1, 1 / 20, 1⟩

/-- Enhanced engine parameters with a 1% commission and no slippage. -/
def enhCommissionParams : EnhParams := ⟨10000, 1 / 100, 0, 1 / 2⟩

/-- A buy signal at price 100 followed by a sell signal at price 110. -/
def enhBuySellSignals : List SignalRow := [⟨0, some 1, 100⟩, ⟨1, some (-1), 110⟩]

/-- Enhanced engine parameters investing the full capital with 1% commission:
the entry cost then exceeds the available cash. -/
def enhFullSizeParams : EnhParams := ⟨10000, 1 / 100, 0, 1⟩

/-- A single buy signal at price 100. -/
def enhBuySignals : List SignalRow := [⟨0, some 1, 100⟩]

/-- The AAPL frame holding exactly the matching `2021-01-04` reference row. -/
def aaplJanOnly : PriceFrame := [("2021-01-04", ⟨13352 / 100, 12941 / 100, 1433019⟩)]

/-- The AAPL frame matching all three reference rows exactly. -/
def aaplFull : PriceFrame :=
  [("2021-01-04", ⟨13352 / 100, 12941 / 100, 1433019⟩),
   ("2021-12-31", ⟨17809 / 100, 17757 / 100, 1051585⟩),
   ("2022-01-03", ⟨17783 / 100, 18201 / 100, 1044879⟩)]

/-- `aaplFull` with the `2021-01-04` close perturbed by +5%. -/
def aaplPerturbed : PriceFrame :=
  [("2021-01-04", ⟨13352 / 100, 12941 / 100 * (105 / 100), 1433019⟩),
   ("2021-12-31", ⟨17809 / 100, 17757 / 100, 1051585⟩),
   ("2022-01-03", ⟨17783 / 100, 18201 / 100, 1044879⟩)]

/-- The first trade recorded by `_execute_trades` on `enhBuySellSignals`
with `enhCommissionParams`: buy 50 shares at 100, close at 110; the engine
reports `net_pnl = 445`, subtracting only the exit commission 55 from the
gross 500 — the entry commission 50 is charged to cash only. -/
def enhFirstTrade : EnhTrade :=
  ⟨"TEST", 0, 1, 100, 110, 50, 50, 500, 55, 445, 89 / 1000, 10395⟩

/-- The single trade recorded by the polygon momentum strategy on `testData`:
entry at 110 on day 1 of `10000 × 0.5 / 110 = 500/11` (fractional) shares,
exit at 121 on day 2 for a P&L of 500. -/
def polyTestTrade : PolyTrade := ⟨"TEST", 1, 2, 110, 121, 500 / 11, 500, 1 / 10⟩

/-- Enhanced engine parameters of the specification scenario: capital 10000,
no commission, no slippage, half-capital sizing. -/
def enhNoFrictionParams : EnhParams := ⟨10000, 0, 0, 1 / 2⟩

/-- The cash/positions part of the invariant carried through the momentum
date loop: cash is non-negative and every open position has positive
quantity. -/
def PolyInv (st : PolyState) : Prop :=
  0 ≤ st.cash ∧ ∀ q ∈ st.positions, 0 < q.2.quantity

/-- The bookkeeping invariant behind the polygon trade-P&L identity: every
open position's stored `cost` is `quantity × entry_price × (1 + commission)`
and every recorded trade satisfies the two-commission P&L identity. -/
def PolyPnlInv (c : ℚ) (st : PolyState) : Prop :=
  (∀ q ∈ st.positions, q.2.cost = q.2.quantity * q.2.entry_price * (1 + c)) ∧
  ∀ t ∈ st.trades,
    t.pnl = (t.exit_price - t.entry_price) * t.quantity
      - t.entry_price * t.quantity * c - t.exit_price * t.quantity * c

/-- The enhanced-engine trade identity: every recorded trade's `net_pnl`
subtracts only the exit commission from the gross P&L. -/
def EnhPnlInv (c : ℚ) (st : EnhState) : Prop :=
  ∀ t ∈ st.trades,
    t.net_pnl = (t.exit_price - t.entry_price) * t.shares - t.exit_price * t.shares * c

end F1

namespace F1

/-! ## Helper lemmas -/

theorem alGet_mem {κ β : Type} [DecidableEq κ] {l : List (κ × β)} {a : κ} {b : β}
    (h : alGet a l = some b) : (a, b) ∈ l := by
  induction l with
  | nil => simp [alGet] at h
  | cons p t ih =>
    rcases p with ⟨k, v⟩
    rw [alGet] at h
    by_cases hk : a = k
    · rw [if_pos hk] at h
      injection h with hv
      subst hk
      subst hv
      exact List.mem_cons_self _ _
    · rw [if_neg hk] at h
      exact List.mem_cons_of_mem _ (ih h)

theorem foldl_preserve {σ α : Type} {P : σ → Prop} {f : σ → α → σ}
    (h : ∀ s a, P s → P (f s a)) (l : List α) (s : σ) (hs : P s) :
    P (l.foldl f s) := by
  induction l generalizing s with
  | nil => exact hs
  | cons x t ih => exact ih _ (h _ _ hs)

theorem pythonRangeAux_length (stop step : ℕ) (hstep : 0 < step) :
    ∀ fuel start, stop - start ≤ fuel →
      (pythonRangeAux stop step start fuel).length = (stop - start + step - 1) / step := by
  intro fuel
  induction fuel with
  | zero =>
    intro start hle
    have h0 : stop - start = 0 := Nat.le_zero.mp hle
    simp [pythonRangeAux, h0, Nat.div_eq_of_lt (Nat.sub_lt hstep Nat.one_pos)]
  | succ n ih =>
    intro start hle
    rw [pythonRangeAux]
    split
    · rename_i hlt
      have ha : 1 ≤ stop - start := by omega
      have hnext : stop - (start + step) ≤ n := by omega
      rw [List.length_cons, ih _ hnext]
      have h₁ : stop - start + step - 1 = (stop - start - 1) + step := by omega
      have h₂ : stop - (start + step) + step - 1 = stop - start - 1 ∨
          (stop - (start + step) + step - 1 = step - 1 ∧ stop - start - 1 < step) := by omega
      rw [h₁, Nat.add_div_right _ hstep]
      rcases h₂ with h₂ | ⟨h₂, h₃⟩
      · rw [h₂]
      · rw [h₂, Nat.div_eq_of_lt (Nat.sub_lt hstep Nat.one_pos),
          Nat.div_eq_of_lt h₃]
    · rename_i hge
      have h0 : stop - start = 0 := by omega
      simp [h0, Nat.div_eq_of_lt (Nat.sub_lt hstep Nat.one_pos)]

end F1

namespace F1

/-! ## C3 — walk-forward window count -/

/-- C3 counterexample: with the default parameters `train=252`, `test=63`,
`step=21` and a series of exactly `n = 315 = 252 + 63` bars (so
`n ≥ train + test` as the claim requires), the claimed count
`⌊(n − train − test)/step⌋ + 1 = 1` differs from the `0` windows the loop
actually produces, because the loop runs only while
`start + train + test < n` strictly. -/
theorem C3_counterexample :
    (WalkForwardAnalyzer.run_walk_forward_windows 315 252 63 21).length = 0 ∧
    (315 - 252 - 63) / 21 + 1 = 1 ∧ (0 : ℕ) ≠ 1 := by
  refine ⟨rfl, rfl, by decide⟩

/-- C3 (amended): for a positive step, the walk-forward loop produces exactly
`⌈(n − train − test)/step⌉` windows — one per start in `0, step, 2·step, …`
while `start + train + test < n` strictly — i.e.
`(n − train − test + step − 1) / step` in truncated natural arithmetic.  For
`n = train + test` this is `0`, not the `⌊…⌋ + 1 = 1` of the original claim. -/
theorem C3_window_count (n train_period test_period step_size : ℕ)
    (hstep : 0 < step_size) :
    (WalkForwardAnalyzer.run_walk_forward_windows n train_period test_period
        step_size).length =
      (n - train_period - test_period + step_size - 1) / step_size := by
  unfold WalkForwardAnalyzer.run_walk_forward_windows WalkForwardAnalyzer.walkForwardStarts
    pythonRange
  rw [List.length_map]
  have := pythonRangeAux_length (n - train_period - test_period) step_size hstep
    (n - train_period - test_period) 0 (by omega)
  rw [this, Nat.sub_zero]

/-- C3 witness: a 400-bar series with the default windows yields
`⌈(400−252−63)/21⌉ = 5` windows. -/
theorem C3_window_count_witness :
    (WalkForwardAnalyzer.run_walk_forward_windows 400 252 63 21).length =
      (400 - 252 - 63 + 21 - 1) / 21 :=
  C3_window_count 400 252 63 21 (by decide)

/-! ## C4 — Monte Carlo determinism -/

/-- C4: the Monte Carlo pipeline threads its pseudo-random generator state
explicitly, so two runs with the same seed (and the same return series,
simulation count and initial capital) produce identical aggregate statistics:
mean/variance/min/max of final value, total return and max drawdown, and both
2.5/97.5-percentile confidence intervals. -/
theorem C4_monte_carlo_deterministic (n_simulations : ℕ) (returns : List ℚ)
    (initial_capital : ℚ) (seed₁ seed₂ : ℕ) (h : seed₁ = seed₂) :
    MonteCarloSimulator.run_monte_carlo n_simulations returns initial_capital seed₁ =
      MonteCarloSimulator.run_monte_carlo n_simulations returns initial_capital seed₂ := by
  rw [h]

/-- C4 witness: three simulations over a two-return series from seed 42,
twice. -/
theorem C4_monte_carlo_deterministic_witness :
    MonteCarloSimulator.run_monte_carlo 3 [1 / 10, -1 / 20] 100000 42 =
      MonteCarloSimulator.run_monte_carlo 3 [1 / 10, -1 / 20] 100000 42 :=
  C4_monte_carlo_deterministic 3 [1 / 10, -1 / 20] 100000 42 42 rfl

/-! ## C7 — known-data-point check -/

/-- C7 counterexample: an AAPL frame whose `2021-01-04` row matches the
built-in reference exactly scores `1/3`, not `1.0`: the score divides the
matched count by all three AAPL reference points, in both validator copies. -/
theorem C7_counterexample :
    BacktestValidator.validate_known_data_points "AAPL" aaplJanOnly = 1 / 3 ∧
    BacktestValidator.validate_known_data_points "AAPL" aaplJanOnly ≠ 1 ∧
    ValidationFramework.validate_known_data_points "AAPL" aaplJanOnly = 1 / 3 := by
  have h₁ : ("2021-12-31" = "2021-01-04") = False := by simp
  have h₂ : ("2022-01-03" = "2021-01-04") = False := by simp
  refine ⟨?_, ?_, ?_⟩ <;>
    norm_num [BacktestValidator.validate_known_data_points,
      ValidationFramework.validate_known_data_points,
      BacktestValidator.validation_data, ValidationFramework.validation_data,
      aaplJanOnly, alGet, List.countP, List.countP.go,
      BacktestValidator.price_tolerance, BacktestValidator.volume_tolerance, h₁, h₂]

/-- C7 (amended): the known-data-point score is the matched fraction of all
three AAPL reference points.  A frame matching all three reference rows
(within the 0.1% price and 10% volume tolerances; here exactly) scores `1.0`;
perturbing the `2021-01-04` close by 5% stops that row from being counted,
dropping the score to `2/3`.  The framework copy agrees. -/
theorem C7_known_data_points :
    BacktestValidator.validate_known_data_points "AAPL" aaplFull = 1 ∧
    BacktestValidator.validate_known_data_points "AAPL" aaplPerturbed = 2 / 3 ∧
    ValidationFramework.validate_known_data_points "AAPL" aaplFull = 1 ∧
    ValidationFramework.validate_known_data_points "AAPL" aaplPerturbed = 2 / 3 := by
  have h₁ : ("2021-12-31" = "2021-01-04") = False := by simp
  have h₂ : ("2022-01-03" = "2021-01-04") = False := by simp
  have h₃ : ("2021-01-04" = "2021-12-31") = False := by simp
  have h₄ : ("2022-01-03" = "2021-12-31") = False := by simp
  have h₅ : ("2021-01-04" = "2022-01-03") = False := by simp
  have h₆ : ("2021-12-31" = "2022-01-03") = False := by simp
  have ha : |(12941 : ℚ) / 2000| = 12941 / 2000 := abs_of_nonneg (by norm_num)
  refine ⟨?_, ?_, ?_, ?_⟩ <;>
    norm_num [BacktestValidator.validate_known_data_points,
      ValidationFramework.validate_known_data_points,
      BacktestValidator.validation_data, ValidationFramework.validation_data,
      aaplFull, aaplPerturbed, alGet, List.countP, List.countP.go,
      BacktestValidator.price_tolerance, BacktestValidator.volume_tolerance,
      h₁, h₂, h₃, h₄, h₅, h₆, ha]

/-! ## C8 — overall accuracy aggregation -/

/-- C8 counterexample: `backtest_validator.py`'s `_calculate_accuracy_metrics`
at data score 0 and calculation score 0 reports `overall_accuracy = 0`, while
the arithmetic mean of its three reported category scores (data 0,
calculation 0, strategy placeholder 1) is `1/3`. -/
theorem C8_counterexample :
    (BacktestValidator.calculate_accuracy_metrics 0 0).overall_accuracy = 0 ∧
    ((BacktestValidator.calculate_accuracy_metrics 0 0).data_accuracy +
        (BacktestValidator.calculate_accuracy_metrics 0 0).calculation_accuracy +
        (BacktestValidator.calculate_accuracy_metrics 0 0).strategy_accuracy) / 3 =
      1 / 3 ∧
    (0 : ℚ) ≠ 1 / 3 := by
  refine ⟨by norm_num [BacktestValidator.calculate_accuracy_metrics], by
    norm_num [BacktestValidator.calculate_accuracy_metrics], by norm_num⟩

/-- C8 (amended): `backtest_validation_framework.py` reports
`overall_accuracy` as the arithmetic mean of its three category scores, but
`backtest_validator.py` reports the mean of the data and calculation scores
only, with `strategy_accuracy` fixed to the placeholder `1.0` and excluded
from the mean. -/
theorem C8_overall_accuracy (d c s : ℚ) :
    (ValidationFramework.calculate_accuracy_metrics d c s).overall_accuracy =
      ((ValidationFramework.calculate_accuracy_metrics d c s).data_accuracy +
        (ValidationFramework.calculate_accuracy_metrics d c s).calculation_accuracy +
        (ValidationFramework.calculate_accuracy_metrics d c s).strategy_accuracy) / 3 ∧
    (BacktestValidator.calculate_accuracy_metrics d c).overall_accuracy = (d + c) / 2 ∧
    (BacktestValidator.calculate_accuracy_metrics d c).strategy_accuracy = 1 :=
  ⟨rfl, rfl, rfl⟩

/-! ## C10 — symbols without reference data -/

/-- C10: for any symbol other than `AAPL` and `MSFT` — the only keys of the
built-in ground-truth table — the known-data-point check of either validator
returns a perfect `1.0`, whatever the symbol's price data contains. -/
theorem C10_unknown_symbol (symbol : String) (df : PriceFrame)
    (h₁ : symbol ≠ "AAPL") (h₂ : symbol ≠ "MSFT") :
    BacktestValidator.validate_known_data_points symbol df = 1 ∧
    ValidationFramework.validate_known_data_points symbol df = 1 := by
  constructor
  · unfold BacktestValidator.validate_known_data_points
    simp [BacktestValidator.validation_data, alGet, h₁, h₂]
  · unfold ValidationFramework.validate_known_data_points
    simp [ValidationFramework.validation_data, alGet, h₁, h₂]

/-- C10 witness: a `GOOG` frame with arbitrary garbage contents scores 1.0
in both copies. -/
theorem C10_unknown_symbol_witness :
    BacktestValidator.validate_known_data_points "GOOG"
        [("2021-01-04", ⟨-5, 0, 123⟩)] = 1 ∧
    ValidationFramework.validate_known_data_points "GOOG"
        [("2021-01-04", ⟨-5, 0, 123⟩)] = 1 :=
  C10_unknown_symbol "GOOG" [("2021-01-04", ⟨-5, 0, 123⟩)]
    (by decide) (by decide)

end F1

namespace F1

/-! ## C9 — calculation validation with no trades -/

/-- C9 counterexample: with an empty trade list and an explicitly empty
`portfolio_value` list, `validate_calculations` raises `IndexError` reading
`backtest_results.get('portfolio_value', [100000])[0]` — which happens before
the empty-trades early return — instead of returning the
passed-False/score-0 `ValidationResult`. -/
theorem C9_counterexample :
    BacktestValidator.validate_calculations ⟨[], some [], ⟨none, none, none⟩⟩ =
      Except.error "IndexError: list index out of range" ∧
    (Except.error "IndexError: list index out of range" :
        Except String BacktestValidator.ValidationResult) ≠
      Except.ok ⟨"Calculation Validation", false, 0, some "No trades to validate",
        ["Ensure strategy generates trades", "Check strategy parameters"]⟩ := by
  exact ⟨rfl, by simp⟩

/-- C9 (amended): for every backtest result with an empty trade list whose
`portfolio_value` entry is absent or non-empty, `validate_calculations`
returns the fixed `ValidationResult` with `passed = False`, `score = 0.0` and
error message `'No trades to validate'`; when the result carries an
explicitly empty `portfolio_value` list the function instead raises
`IndexError` while reading the initial capital. -/
theorem C9_no_trades (r : BacktestValidator.VBacktestResults)
    (h₁ : r.trades = []) (h₂ : r.portfolio_value.getD [100000] ≠ []) :
    BacktestValidator.validate_calculations r =
      Except.ok ⟨"Calculation Validation", false, 0, some "No trades to validate",
        ["Ensure strategy generates trades", "Check strategy parameters"]⟩ := by
  unfold BacktestValidator.validate_calculations
  cases hl : r.portfolio_value.getD [100000] with
  | nil => exact absurd hl h₂
  | cons a t => simp [h₁]

/-- C9 witness: a result dict with no trades and no `portfolio_value` key. -/
theorem C9_no_trades_witness :
    BacktestValidator.validate_calculations ⟨[], none, ⟨none, none, none⟩⟩ =
      Except.ok ⟨"Calculation Validation", false, 0, some "No trades to validate",
        ["Ensure strategy generates trades", "Check strategy parameters"]⟩ :=
  C9_no_trades ⟨[], none, ⟨none, none, none⟩⟩ rfl (by simp)

/-! ## C5 — the three max-drawdown implementations -/

theorem runningMaxAux_map_mul {C : ℚ} (hC : 0 ≤ C) (m : ℚ) (l : List ℚ) :
    runningMaxAux (C * m) (l.map (fun x => C * x)) =
      (runningMaxAux m l).map (fun x => C * x) := by
  induction l generalizing m with
  | nil => rfl
  | cons x xs ih =>
    simp only [List.map, runningMaxAux]
    rw [← mul_max_of_nonneg _ _ hC, ih]

theorem zipWith_dd_map_mul {C : ℚ} (hC : C ≠ 0) (xs : List ℚ) :
    ∀ ys : List ℚ,
      List.zipWith (fun v m => (v - m) / m) (xs.map (fun x => C * x))
          (ys.map (fun x => C * x)) =
        List.zipWith (fun v m => (v - m) / m) xs ys := by
  induction xs with
  | nil => intro ys; rfl
  | cons x xs ih =>
    intro ys
    cases ys with
    | nil => rfl
    | cons y ys =>
      simp only [List.map, List.zipWith]
      rw [ih]
      congr 1
      rw [← mul_sub, mul_div_mul_left _ _ hC]

/-- C5: the three max-drawdown implementations agree exactly: the
`PerformanceAnalytics` and `RiskManager` versions have identical bodies on
the return series, and the `MonteCarloSimulator` version applied to the
portfolio-value series obtained by compounding those returns from a positive
initial capital yields the same value, since drawdowns are invariant under
positive scaling of the equity curve. -/
theorem C5_max_drawdown_agree (returns : List ℚ) (initial_capital : ℚ)
    (hC : 0 < initial_capital) :
    PerformanceAnalytics.calculate_max_drawdown returns =
      RiskManager.calculate_max_drawdown returns ∧
    MonteCarloSimulator.calculate_max_drawdown
        (portfolioValues initial_capital returns) =
      PerformanceAnalytics.calculate_max_drawdown returns := by
  refine ⟨rfl, ?_⟩
  unfold MonteCarloSimulator.calculate_max_drawdown
    PerformanceAnalytics.calculate_max_drawdown portfolioValues
  cases hcum : cumprod (returns.map (fun r => 1 + r)) with
  | nil => rfl
  | cons c cs =>
    simp only [List.map, runningMax]
    rw [runningMaxAux_map_mul hC.le]
    have hcons : initial_capital * c ::
        (runningMaxAux c cs).map (fun x => initial_capital * x) =
        (c :: runningMaxAux c cs).map (fun x => initial_capital * x) := rfl
    rw [hcons,
      show initial_capital * c :: cs.map (fun x => initial_capital * x) =
        (c :: cs).map (fun x => initial_capital * x) from rfl,
      zipWith_dd_map_mul hC.ne.symm]

/-- C5 witness: the scenario equity curve `[+10%, −20%]` from capital 1000. -/
theorem C5_max_drawdown_agree_witness :
    PerformanceAnalytics.calculate_max_drawdown [1 / 10, -1 / 5] =
      RiskManager.calculate_max_drawdown [1 / 10, -1 / 5] ∧
    MonteCarloSimulator.calculate_max_drawdown
        (portfolioValues 1000 [1 / 10, -1 / 5]) =
      PerformanceAnalytics.calculate_max_drawdown [1 / 10, -1 / 5] :=
  C5_max_drawdown_agree [1 / 10, -1 / 5] 1000 (by norm_num)

end F1

namespace F1

/-! ## Polygon engine invariants -/

theorem polyProcessExit_inv (data : List (String × Df)) (params : PolyParams)
    (cfg : PolyConfig) (date : ℕ) (hcom : params.commission ≤ 1)
    (hpr : ∀ p ∈ data, ∀ b ∈ p.2, 0 ≤ b.2) :
    ∀ st sym, PolyInv st → PolyInv (polyProcessExit data params cfg date st sym) := by
  intro st sym h
  obtain ⟨hcash, hpos⟩ := h
  simp only [polyProcessExit]
  cases hlk : alGet sym st.positions with
  | none => exact ⟨hcash, hpos⟩
  | some position =>
    cases hdf : (alGet sym data).bind (fun df => dfClose df date) with
    | none => exact ⟨hcash, hpos⟩
    | some current_price =>
      dsimp only
      split
      · refine ⟨?_, ?_⟩
        · have hq : 0 < position.quantity := hpos _ (alGet_mem hlk)
          have hp : 0 ≤ current_price := by
            cases hld : alGet sym data with
            | none => rw [hld] at hdf; simp at hdf
            | some df =>
              rw [hld] at hdf
              simp only [Option.some_bind] at hdf
              exact hpr _ (alGet_mem hld) _ (alGet_mem hdf)
          have hv : 0 ≤ position.quantity * current_price * (1 - params.commission) :=
            mul_nonneg (mul_nonneg hq.le hp) (by linarith)
          simpa using add_nonneg hcash hv
        · intro q hq
          exact hpos _ (List.mem_of_mem_filter hq)
      · exact ⟨hcash, hpos⟩

theorem polyProcessExit_cash_mono (data : List (String × Df)) (params : PolyParams)
    (cfg : PolyConfig) (date : ℕ) (hcom : params.commission ≤ 1)
    (hpr : ∀ p ∈ data, ∀ b ∈ p.2, 0 ≤ b.2)
    (st : PolyState) (sym : String) (h : PolyInv st) :
    st.cash ≤ (polyProcessExit data params cfg date st sym).cash := by
  obtain ⟨hcash, hpos⟩ := h
  simp only [polyProcessExit]
  cases hlk : alGet sym st.positions with
  | none => exact le_refl _
  | some position =>
    cases hdf : (alGet sym data).bind (fun df => dfClose df date) with
    | none => exact le_refl _
    | some current_price =>
      dsimp only
      split
      · have hq : 0 < position.quantity := hpos _ (alGet_mem hlk)
        have hp : 0 ≤ current_price := by
          cases hld : alGet sym data with
          | none => rw [hld] at hdf; simp at hdf
          | some df =>
            rw [hld] at hdf
            simp only [Option.some_bind] at hdf
            exact hpr _ (alGet_mem hld) _ (alGet_mem hdf)
        have hv : 0 ≤ position.quantity * current_price * (1 - params.commission) :=
          mul_nonneg (mul_nonneg hq.le hp) (by linarith)
        dsimp only
        linarith
      · exact le_refl _

theorem polyProcessEntry_inv (params : PolyParams) (date : ℕ) :
    ∀ st c, PolyInv st → PolyInv (polyProcessEntry params date st c) := by
  intro st c h
  obtain ⟨hcash, hpos⟩ := h
  simp only [polyProcessEntry]
  split
  · rename_i hq
    split
    · rename_i hcost
      refine ⟨?_, ?_⟩
      · dsimp only
        linarith
      · intro q hmem
        dsimp only at hmem
        rcases List.mem_append.mp hmem with hold | hnew
        · exact hpos _ hold
        · simp only [List.mem_singleton] at hnew
          subst hnew
          exact hq
    · exact ⟨hcash, hpos⟩
  · exact ⟨hcash, hpos⟩

theorem polyProcessEntry_skip (params : PolyParams) (date : ℕ) (st : PolyState)
    (c : PolyCandidate)
    (hcost : ¬ st.cash * params.position_size / c.price * c.price *
      (1 + params.commission) ≤ st.cash) :
    polyProcessEntry params date st c = st := by
  simp only [polyProcessEntry]
  split
  · rfl
  · rfl

theorem polyStepDate_inv (data : List (String × Df)) (params : PolyParams)
    (cfg : PolyConfig) (hcom : params.commission ≤ 1)
    (hpr : ∀ p ∈ data, ∀ b ∈ p.2, 0 ≤ b.2) :
    ∀ st date, PolyInv st → PolyInv (polyStepDate data params cfg st date) := by
  intro st date h
  simp only [polyStepDate]
  split
  · exact foldl_preserve (polyProcessEntry_inv params date) _ _
      (foldl_preserve (polyProcessExit_inv data params cfg date hcom hpr) _ _ ⟨h.1, h.2⟩)
  · exact foldl_preserve (polyProcessExit_inv data params cfg date hcom hpr) _ _ ⟨h.1, h.2⟩

end F1

namespace F1

/-! ## Enhanced engine trade identity -/

theorem enhStep_pnl (symbol : String) (params : EnhParams) :
    ∀ st row, EnhPnlInv params.commission st →
      EnhPnlInv params.commission (enhStep symbol params st row) := by
  intro st row h t ht
  unfold enhStep at ht
  dsimp only at ht
  repeat' split at ht
  all_goals try simp only [List.mem_append, List.mem_singleton] at ht
  all_goals try exact h t ht
  all_goals rcases ht with hold | hnew
  all_goals try exact h t hold
  all_goals subst hnew
  all_goals try dsimp only
  all_goals try ring

theorem enhFinalClose_pnl (symbol : String) (params : EnhParams)
    (signals : List SignalRow) :
    ∀ st, EnhPnlInv params.commission st →
      EnhPnlInv params.commission (enhFinalClose symbol params signals st) := by
  intro st h t ht
  unfold enhFinalClose at ht
  dsimp only at ht
  repeat' split at ht
  all_goals try simp only [List.mem_append, List.mem_singleton] at ht
  all_goals try exact h t ht
  all_goals rcases ht with hold | hnew
  all_goals try exact h t hold
  all_goals subst hnew
  all_goals try dsimp only
  all_goals try ring

end F1

namespace F1

/-! ## Polygon engine trade identity -/

theorem polyProcessExit_pnl (data : List (String × Df)) (params : PolyParams)
    (cfg : PolyConfig) (date : ℕ) :
    ∀ st sym, PolyPnlInv params.commission st →
      PolyPnlInv params.commission (polyProcessExit data params cfg date st sym) := by
  intro st sym h
  obtain ⟨hpos, htr⟩ := h
  simp only [polyProcessExit]
  cases hlk : alGet sym st.positions with
  | none => exact ⟨hpos, htr⟩
  | some position =>
    cases hdf : (alGet sym data).bind (fun df => dfClose df date) with
    | none => exact ⟨hpos, htr⟩
    | some current_price =>
      dsimp only
      split
      · refine ⟨?_, ?_⟩
        · intro q hq
          exact hpos _ (List.mem_of_mem_filter hq)
        · intro t ht
          dsimp only at ht
          rcases List.mem_append.mp ht with hold | hnew
          · exact htr _ hold
          · simp only [List.mem_singleton] at hnew
            subst hnew
            have hc := hpos _ (alGet_mem hlk)
            dsimp only
            rw [hc]
            ring
      · exact ⟨hpos, htr⟩

theorem polyProcessEntry_pnl (params : PolyParams) (date : ℕ) :
    ∀ st c, PolyPnlInv params.commission st →
      PolyPnlInv params.commission (polyProcessEntry params date st c) := by
  intro st c h
  obtain ⟨hpos, htr⟩ := h
  simp only [polyProcessEntry]
  split
  · split
    · refine ⟨?_, ?_⟩
      · intro q hmem
        dsimp only at hmem
        rcases List.mem_append.mp hmem with hold | hnew
        · exact hpos _ hold
        · simp only [List.mem_singleton] at hnew
          subst hnew
          rfl
      · intro t ht
        exact htr _ ht
    · exact ⟨hpos, htr⟩
  · exact ⟨hpos, htr⟩

theorem polyStepDate_pnl (data : List (String × Df)) (params : PolyParams)
    (cfg : PolyConfig) :
    ∀ st date, PolyPnlInv params.commission st →
      PolyPnlInv params.commission (polyStepDate data params cfg st date) := by
  intro st date h
  simp only [polyStepDate]
  split
  · exact foldl_preserve (polyProcessEntry_pnl params date) _ _
      (foldl_preserve (polyProcessExit_pnl data params cfg date) _ _ ⟨h.1, h.2⟩)
  · exact foldl_preserve (polyProcessExit_pnl data params cfg date) _ _ ⟨h.1, h.2⟩

end F1

namespace F1

/-! ## C1 — trade net P&L -/

/-- C1 counterexample: in the enhanced engine with a 1% commission, the trade
entered with 50 shares at 100 and closed at 110 reports `net_pnl = 445`,
while the claimed two-commission formula gives `500 − 50 − 55 = 395`: the
gap of 50 far exceeds the 1e-6 tolerance. -/
theorem C1_counterexample :
    enhFirstTrade ∈ execute_trades enhBuySellSignals "TEST" enhCommissionParams ∧
    ¬ |enhFirstTrade.net_pnl -
        ((enhFirstTrade.exit_price - enhFirstTrade.entry_price) * enhFirstTrade.shares
          - enhFirstTrade.entry_price * enhFirstTrade.shares * enhCommissionParams.commission
          - enhFirstTrade.exit_price * enhFirstTrade.shares * enhCommissionParams.commission)|
      ≤ 1 / 1000000 := by
  constructor
  · have h1 : (execute_trades enhBuySellSignals "TEST" enhCommissionParams).head? =
        some enhFirstTrade := by
      norm_num [execute_trades, enhBuySellSignals, enhCommissionParams, enhStep,
        enhFinalClose, enhInitState, pyInt, enhFirstTrade, List.head?]
    exact List.mem_of_mem_head? (Option.mem_def.mpr h1)
  · have ha : |(50 : ℚ)| = 50 := abs_of_nonneg (by norm_num)
    norm_num [enhFirstTrade, enhCommissionParams, ha]

/-- C1 (amended): every trade recorded by the polygon momentum engine
satisfies the two-commission identity
`pnl = (exit − entry)·qty − entry·qty·c − exit·qty·c` exactly, but every
trade recorded by the enhanced engine satisfies only
`net_pnl = (exit − entry)·shares − exit·shares·c`: the enhanced engine
charges the entry commission to cash without deducting it from `net_pnl`. -/
theorem C1_trade_pnl :
    (∀ (data : List (String × Df)) (params : PolyParams) (cfg : PolyConfig),
      ∀ t ∈ (runMomentumStrategy data params cfg).trades,
        t.pnl = (t.exit_price - t.entry_price) * t.quantity
          - t.entry_price * t.quantity * params.commission
          - t.exit_price * t.quantity * params.commission) ∧
    (∀ (signals : List SignalRow) (symbol : String) (params : EnhParams),
      ∀ t ∈ execute_trades signals symbol params,
        t.net_pnl = (t.exit_price - t.entry_price) * t.shares
          - t.exit_price * t.shares * params.commission) := by
  constructor
  · intro data params cfg t ht
    have h : PolyPnlInv params.commission (runMomentumStrategy data params cfg) :=
      foldl_preserve (polyStepDate_pnl data params cfg) _ _
        ⟨by simp [polyInitState], by simp [polyInitState]⟩
    exact h.2 _ ht
  · intro signals symbol params t ht
    have h : EnhPnlInv params.commission
        (enhFinalClose symbol params signals
          (signals.foldl (enhStep symbol params) (enhInitState params))) :=
      enhFinalClose_pnl symbol params signals _
        (foldl_preserve (enhStep_pnl symbol params) _ _
          (by intro t' ht'; simp [enhInitState] at ht'))
    exact h _ ht

set_option maxHeartbeats 2000000 in
/-- C1 witness: the polygon scenario trade (entry 110, exit 121, 500/11
shares, zero commission) satisfies the two-commission identity. -/
theorem C1_trade_pnl_witness :
    polyTestTrade.pnl =
      (polyTestTrade.exit_price - polyTestTrade.entry_price) * polyTestTrade.quantity
        - polyTestTrade.entry_price * polyTestTrade.quantity * testPolyParams.commission
        - polyTestTrade.exit_price * polyTestTrade.quantity * testPolyParams.commission :=
  C1_trade_pnl.1 testData testPolyParams testPolyCfg polyTestTrade (by
    have h1 : (runMomentumStrategy testData testPolyParams testPolyCfg).trades.head? =
        some polyTestTrade := by
      norm_num [runMomentumStrategy, testData, testPolyParams, testPolyCfg, polyAllDates,
        polyStepDate, polyInitState, polyPortfolioValue, polyProcessExit, polyProcessEntry,
        polyCandidates, polySortCandidates, polyMomentum, pySorted, pyInsert, listDedup,
        pyGetLoc, pyGetLocAux, pyIndexDate, listNth, dfDates, dfClose, dfHasDate, alGet,
        polyTestTrade, List.head?]
    exact List.mem_of_mem_head? (Option.mem_def.mpr h1))

/-! ## C2 — non-negative cash -/

/-- C2: under a non-negative initial capital, a commission rate at most 1 and
non-negative close prices, the polygon momentum loop keeps the cash balance
non-negative after every prefix of the simulated date axis; an entry whose
total cost `quantity × price × (1 + commission)` exceeds the available cash
leaves the state unchanged, and exits never decrease cash. -/
theorem C2_cash_nonneg (data : List (String × Df)) (params : PolyParams)
    (cfg : PolyConfig)
    (hcap : 0 ≤ params.initial_capital) (hcom : params.commission ≤ 1)
    (hpr : ∀ p ∈ data, ∀ b ∈ p.2, 0 ≤ b.2) :
    (∀ k : ℕ, 0 ≤ (((polyAllDates data).take k).foldl (polyStepDate data params cfg)
        (polyInitState params)).cash) ∧
    (∀ (st : PolyState) (c : PolyCandidate) (date : ℕ),
      ¬ st.cash * params.position_size / c.price * c.price * (1 + params.commission) ≤
          st.cash →
        polyProcessEntry params date st c = st) ∧
    (∀ (st : PolyState) (sym : String) (date : ℕ), PolyInv st →
      st.cash ≤ (polyProcessExit data params cfg date st sym).cash) := by
  refine ⟨?_, ?_, ?_⟩
  · intro k
    exact (foldl_preserve (polyStepDate_inv data params cfg hcom hpr) _ _
      ⟨hcap, by intro q hq; simp [polyInitState] at hq⟩).1
  · intro st c date hcost
    exact polyProcessEntry_skip params date st c hcost
  · intro st sym date h
    exact polyProcessExit_cash_mono data params cfg date hcom hpr st sym h

/-- C2 witness: the scenario run over the full three-bar date axis keeps
cash non-negative. -/
theorem C2_cash_nonneg_witness :
    0 ≤ (((polyAllDates testData).take 3).foldl
        (polyStepDate testData testPolyParams testPolyCfg)
        (polyInitState testPolyParams)).cash :=
  (C2_cash_nonneg testData testPolyParams testPolyCfg
    (by norm_num [testPolyParams]) (by norm_num [testPolyParams])
    (by
      intro p hp
      simp only [testData, List.mem_singleton] at hp
      subst hp
      intro b hb
      simp only [List.mem_cons, List.not_mem_nil, or_false] at hb
      rcases hb with hb | hb | hb <;> subst hb <;> norm_num)).1 3

/-! ## C6 — position sizing -/

set_option maxHeartbeats 2000000 in
/-- C6 counterexample: on the scenario data the polygon engine records a
trade of `500/11` shares — `quantity = cash × position_size / close` is not
floored (and not slippage-adjusted) — although
`⌊10000 × 0.5 / (110 × (1 + 0))⌋ = 45`, so the claimed quantity 45 is wrong
for this engine. -/
theorem C6_counterexample :
    (runMomentumStrategy testData testPolyParams testPolyCfg).trades.map
        PolyTrade.quantity = [500 / 11] ∧
    (⌊(10000 * (1 / 2) / (110 * (1 + 0)) : ℚ)⌋ : ℤ) = 45 ∧
    (500 / 11 : ℚ) ≠ 45 := by
  refine ⟨?_, ?_, by norm_num⟩
  · norm_num [runMomentumStrategy, testData, testPolyParams, testPolyCfg, polyAllDates,
      polyStepDate, polyInitState, polyPortfolioValue, polyProcessExit, polyProcessEntry,
      polyCandidates, polySortCandidates, polyMomentum, pySorted, pyInsert, listDedup,
      pyGetLoc, pyGetLocAux, pyIndexDate, listNth, dfDates, dfClose, dfHasDate, alGet]
  · rw [Int.floor_eq_iff]
    norm_num

/-- C6 (amended): the enhanced engine buys
`int(cash × position_size / (price × (1 + slippage)))` shares on a buy
signal from a flat position, skipping the entry when that quantity is ≤ 0 —
with cash 10000, fraction 0.5 and price 110 that is exactly 45 shares — but
it never checks the cost against cash (with full sizing and 1% commission a
single buy drives cash to −100).  The polygon engine instead buys the
unfloored `cash × position_size / price` shares, skipping the entry when the
quantity is ≤ 0 or its cost `quantity × price × (1 + commission)` exceeds
cash. -/
theorem C6_position_sizing :
    (∀ (symbol : String) (params : EnhParams) (st : EnhState) (row : SignalRow) (s : ℚ),
      row.signal = some s → 0 < s → st.position = 0 →
      (enhStep symbol params st row).position =
        (if 0 < pyInt (st.cash * params.position_size / (row.price * (1 + params.slippage)))
         then s * (pyInt (st.cash * params.position_size /
            (row.price * (1 + params.slippage))) : ℚ)
         else 0)) ∧
    (enhStep "TEST" enhNoFrictionParams (enhInitState enhNoFrictionParams)
        ⟨2, some 1, 110⟩).position = 45 ∧
    (∀ (params : PolyParams) (date : ℕ) (st : PolyState) (c : PolyCandidate),
      0 < st.cash * params.position_size / c.price →
      st.cash * params.position_size / c.price * c.price * (1 + params.commission) ≤
        st.cash →
      (polyProcessEntry params date st c).positions =
        st.positions ++ [(c.symbol,
          ⟨st.cash * params.position_size / c.price, c.price, date,
            st.cash * params.position_size / c.price * c.price *
              (1 + params.commission)⟩)]) ∧
    ((List.foldl (enhStep "TEST" enhFullSizeParams) (enhInitState enhFullSizeParams)
        enhBuySignals).cash = -100 ∧ ((-100 : ℚ) < 0)) := by
  refine ⟨?_, ?_, ?_, ?_, by norm_num⟩
  · intro symbol params st row s hsig hpos hflat
    simp only [enhStep, hsig]
    have h1 : ¬(st.position ≠ 0 ∧ s ≠ st.position) := by simp [hflat]
    rw [if_pos hpos, if_neg h1]
    have h2 : s ≠ 0 ∧ st.position = 0 := ⟨ne_of_gt hpos, hflat⟩
    rw [if_pos h2]
    split
    · rfl
    · exact hflat
  · norm_num [enhStep, enhInitState, enhNoFrictionParams, pyInt]
  · intro params date st c hq hcost
    simp only [polyProcessEntry]
    rw [if_pos hq, if_pos hcost]
  · norm_num [enhStep, enhInitState, enhFullSizeParams, enhBuySignals, pyInt]

/-- C6 witness: the polygon entry on the scenario candidate (price 110, cash
10000, fraction 0.5, zero commission) appends the fractional 500/11-share
position with its stored cost. -/
theorem C6_position_sizing_witness :
    (polyProcessEntry testPolyParams 1 (polyInitState testPolyParams)
        ⟨"TEST", 1 / 10, 110⟩).positions =
      (polyInitState testPolyParams).positions ++ [("TEST",
        ⟨(polyInitState testPolyParams).cash * testPolyParams.position_size / 110, 110, 1,
          (polyInitState testPolyParams).cash * testPolyParams.position_size / 110 * 110 *
            (1 + testPolyParams.commission)⟩)] :=
  C6_position_sizing.2.2.1 testPolyParams 1 (polyInitState testPolyParams)
    ⟨"TEST", 1 / 10, 110⟩ (by norm_num [polyInitState, testPolyParams])
    (by norm_num [polyInitState, testPolyParams])

end F1
